import Mathlib

/-!
Verification of the notebook document model and format codec of
`crates/repl/src/notebook_ui.rs`.

The codec is `deserialize_notebook`, which is `serde_json::from_str` into the
derived `Deserialize` types `DeserializedNotebook`, `DeserializedMetadata`,
`DeserializedCell` (internally tagged on `cell_type`),
`DeserializedCellMetadata` and `DeserializedOutput` (internally tagged on
`output_type`).  We embed the codec shallowly at the level of parsed JSON
values: a `Json` value stands for the result of `serde_json`'s parsing of the
input text, and the decoder functions below mirror the code generated by
serde's derive macros field by field (required fields error when missing,
`Option` fields decode a missing field or an explicit `null` to `none`,
unknown fields are ignored since no type carries `deny_unknown_fields`,
`i32` fields reject non-integer tokens and out-of-range integers).
Malformed byte streams fail at the abstracted parsing stage and concern no
theorem below.  JSON objects are association lists in textual order; serde
rejects duplicate keys during struct deserialization, so object inputs of
interest have distinct keys (no theorem below depends on duplicates).
-/

namespace NotebookUi

/-- Parsed JSON values, as produced by `serde_json`'s parser.  `num n` is an
integer literal; `fnum m e` is a non-integer numeric literal (a finite double,
written as decimal mantissa and exponent), which `i32` deserialization always
rejects. -/
inductive Json where
  | null : Json
  | bool : Bool → Json
  | num : Int → Json
  | fnum : Int → Int → Json
  | str : String → Json
  | arr : List Json → Json
  | obj : List (String × Json) → Json

/-- First binding of `key` in an object's field list (fields are kept in
textual order, as serde's map visitor sees them). -/
def Json.lookup (fields : List (String × Json)) (key : String) : Option Json :=
  match fields with
  | [] => none
  | (k, v) :: rest => if k = key then some v else Json.lookup rest key

/-- `const DEFAULT_NOTEBOOK_FORMAT: i32 = 4`. -/
def DEFAULT_NOTEBOOK_FORMAT : Int := 4

/-- `const DEFAULT_NOTEBOOK_FORMAT_MINOR: i32 = 0`. -/
def DEFAULT_NOTEBOOK_FORMAT_MINOR : Int := 0

/-- `struct DeserializedKernelSpec`. -/
structure DeserializedKernelSpec where
  name : String

/-- `struct DeserializedLanguageInfo`. -/
structure DeserializedLanguageInfo where
  name : String
  version : Option String
  codemirror_mode : Option String

/-- `struct DeserializedMetadata`. -/
structure DeserializedMetadata where
  kernelspec : Option DeserializedKernelSpec
  language_info : Option DeserializedLanguageInfo

/-- `struct DeserializedCellMetadata` — every field is an `Option`;
`scrolled` holds an arbitrary `serde_json::Value`. -/
structure DeserializedCellMetadata where
  collapsed : Option Bool
  scrolled : Option Json
  deletable : Option Bool
  editable : Option Bool
  format : Option String
  name : Option String
  tags : Option (List String)

/-- `enum DeserializedOutput`, internally tagged on `output_type`.  The
`data`/`metadata` payloads are untyped `serde_json::Value`s. -/
inductive DeserializedOutput where
  | stream : (name : String) → (text : String) → DeserializedOutput
  | displayData : (data : Json) → (metadata : Json) → DeserializedOutput
  | executeResult : (execution_count : Int) → (data : Json) → (metadata : Json) →
      DeserializedOutput
  | error : (ename : String) → (evalue : String) → (traceback : List String) →
      DeserializedOutput

/-- `enum DeserializedCell`, internally tagged on `cell_type`.  `source` is a
plain `String` in the source; `attachments` carries `#[serde(default)]`. -/
inductive DeserializedCell where
  | markdown : (metadata : DeserializedCellMetadata) → (source : String) →
      (attachments : Option Json) → DeserializedCell
  | code : (metadata : DeserializedCellMetadata) → (execution_count : Option Int) →
      (source : String) → (outputs : List DeserializedOutput) → DeserializedCell
  | raw : (metadata : DeserializedCellMetadata) → (source : String) → DeserializedCell

/-- `struct DeserializedNotebook` — the decoded Document.  The struct always
carries `metadata`, `nbformat`, `nbformat_minor` and `cells`. -/
structure DeserializedNotebook where
  metadata : DeserializedMetadata
  nbformat : Int
  nbformat_minor : Int
  cells : List DeserializedCell

/-- `struct NotebookData`, the document model held by the `Notebook` view
(structurally identical to `DeserializedNotebook` in the source). -/
structure NotebookData where
  metadata : DeserializedMetadata
  nbformat : Int
  nbformat_minor : Int
  cells : List DeserializedCell

/-- `impl Default for DeserializedMetadata`: no kernelspec, no language info. -/
def DeserializedMetadata.default : DeserializedMetadata :=
  { kernelspec := none, language_info := none }

/-- `impl Default for NotebookData`: default metadata, current format version,
no cells. -/
def NotebookData.default : NotebookData :=
  { metadata := DeserializedMetadata.default
    nbformat := DEFAULT_NOTEBOOK_FORMAT
    nbformat_minor := DEFAULT_NOTEBOOK_FORMAT_MINOR
    cells := [] }

/-- The document state installed by `Notebook::new` (which creates its data
model with `cx.new_model(|_| NotebookData::default())`). -/
def Notebook.new_data : NotebookData := NotebookData.default

/-- Decoding results: `serde_json::Error` is modelled as a message string. -/
abbrev DecodeResult (α : Type) := Except String α

/-- `String` deserialization: only a JSON string is accepted. -/
def decodeString : Json → DecodeResult String
  | .str s => .ok s
  | _ => .error "invalid type: expected a string"

/-- `bool` deserialization: only a JSON boolean is accepted. -/
def decodeBool : Json → DecodeResult Bool
  | .bool b => .ok b
  | _ => .error "invalid type: expected a boolean"

/-- Smallest `i32` value. -/
def i32Min : Int := -(2 ^ 31)

/-- Largest `i32` value. -/
def i32Max : Int := 2 ^ 31 - 1

/-- `i32` deserialization: an integer literal within `i32` range is accepted;
out-of-range integers and non-integer (fractional/float) literals fail. -/
def decodeI32 : Json → DecodeResult Int
  | .num n =>
      if i32Min ≤ n ∧ n ≤ i32Max then .ok n
      else .error "invalid value: integer out of range for i32"
  | _ => .error "invalid type: expected i32"

/-- `serde_json::Value` deserialization accepts any JSON value as itself. -/
def decodeValue : Json → DecodeResult Json :=
  fun j => .ok j

/-- Deserialization of an `Option<T>` struct field: a missing field and an
explicit `null` both decode to `none`; any other value is decoded by `dec`. -/
def decodeOptField {α : Type} (dec : Json → DecodeResult α) :
    Option Json → DecodeResult (Option α)
  | none => .ok none
  | some .null => .ok none
  | some j => Except.map some (dec j)

/-- Deserialization of a required struct field: missing is an error. -/
def reqField {α : Type} (fields : List (String × Json)) (key : String)
    (dec : Json → DecodeResult α) : DecodeResult α :=
  match Json.lookup fields key with
  | some j => dec j
  | none => .error ("missing field " ++ key)

/-- Elementwise deserialization of a JSON array's contents. -/
def decodeList {α : Type} (dec : Json → DecodeResult α) :
    List Json → DecodeResult (List α)
  | [] => .ok []
  | j :: rest => do
      let x ← dec j
      let xs ← decodeList dec rest
      pure (x :: xs)

/-- `Vec<T>` deserialization: only a JSON array is accepted. -/
def decodeArray {α : Type} (dec : Json → DecodeResult α) :
    Json → DecodeResult (List α)
  | .arr xs => decodeList dec xs
  | _ => .error "invalid type: expected a sequence"

/-- Derived deserialization of `DeserializedKernelSpec`. -/
def decodeKernelSpec : Json → DecodeResult DeserializedKernelSpec
  | .obj fields => do
      let name ← reqField fields "name" decodeString
      pure { name := name }
  | _ => .error "invalid type: expected struct DeserializedKernelSpec"

/-- Derived deserialization of `DeserializedLanguageInfo`. -/
def decodeLanguageInfo : Json → DecodeResult DeserializedLanguageInfo
  | .obj fields => do
      let name ← reqField fields "name" decodeString
      let version ← decodeOptField decodeString (Json.lookup fields "version")
      let codemirror_mode ← decodeOptField decodeString (Json.lookup fields "codemirror_mode")
      pure { name := name, version := version, codemirror_mode := codemirror_mode }
  | _ => .error "invalid type: expected struct DeserializedLanguageInfo"

/-- Derived deserialization of `DeserializedMetadata` (both fields optional). -/
def decodeMetadata : Json → DecodeResult DeserializedMetadata
  | .obj fields => do
      let kernelspec ← decodeOptField decodeKernelSpec (Json.lookup fields "kernelspec")
      let language_info ← decodeOptField decodeLanguageInfo (Json.lookup fields "language_info")
      pure { kernelspec := kernelspec, language_info := language_info }
  | _ => .error "invalid type: expected struct DeserializedMetadata"

/-- Derived deserialization of `DeserializedCellMetadata` (all fields
optional). -/
def decodeCellMetadata : Json → DecodeResult DeserializedCellMetadata
  | .obj fields => do
      let collapsed ← decodeOptField decodeBool (Json.lookup fields "collapsed")
      let scrolled ← decodeOptField decodeValue (Json.lookup fields "scrolled")
      let deletable ← decodeOptField decodeBool (Json.lookup fields "deletable")
      let editable ← decodeOptField decodeBool (Json.lookup fields "editable")
      let format ← decodeOptField decodeString (Json.lookup fields "format")
      let name ← decodeOptField decodeString (Json.lookup fields "name")
      let tags ← decodeOptField (decodeArray decodeString) (Json.lookup fields "tags")
      pure { collapsed := collapsed, scrolled := scrolled, deletable := deletable,
             editable := editable, format := format, name := name, tags := tags }
  | _ => .error "invalid type: expected struct DeserializedCellMetadata"

/-- Derived deserialization of the internally tagged `DeserializedOutput`:
dispatch on the string field `output_type`; a missing, non-string or
unrecognized tag fails this output. -/
def decodeOutput : Json → DecodeResult DeserializedOutput
  | .obj fields =>
      match Json.lookup fields "output_type" with
      | some (.str tag) =>
          if tag = "stream" then do
            let name ← reqField fields "name" decodeString
            let text ← reqField fields "text" decodeString
            pure (.stream name text)
          else if tag = "display_data" then do
            let data ← reqField fields "data" decodeValue
            let metadata ← reqField fields "metadata" decodeValue
            pure (.displayData data metadata)
          else if tag = "execute_result" then do
            let execution_count ← reqField fields "execution_count" decodeI32
            let data ← reqField fields "data" decodeValue
            let metadata ← reqField fields "metadata" decodeValue
            pure (.executeResult execution_count data metadata)
          else if tag = "error" then do
            let ename ← reqField fields "ename" decodeString
            let evalue ← reqField fields "evalue" decodeString
            let traceback ← reqField fields "traceback" (decodeArray decodeString)
            pure (.error ename evalue traceback)
          else .error ("unknown variant " ++ tag)
      | some _ => .error "invalid type: tag output_type must be a string"
      | none => .error "missing field output_type"
  | _ => .error "invalid type: expected an output object"

/-- Derived deserialization of the internally tagged `DeserializedCell`:
dispatch on the string field `cell_type`.  In every variant `metadata` and
`source` are required, `source` only accepts a single JSON string;
`execution_count` and `attachments` are optional, `outputs` is required for
code cells. -/
def decodeCell : Json → DecodeResult DeserializedCell
  | .obj fields =>
      match Json.lookup fields "cell_type" with
      | some (.str tag) =>
          if tag = "markdown" then do
            let metadata ← reqField fields "metadata" decodeCellMetadata
            let source ← reqField fields "source" decodeString
            let attachments ← decodeOptField decodeValue (Json.lookup fields "attachments")
            pure (.markdown metadata source attachments)
          else if tag = "code" then do
            let metadata ← reqField fields "metadata" decodeCellMetadata
            let execution_count ← decodeOptField decodeI32 (Json.lookup fields "execution_count")
            let source ← reqField fields "source" decodeString
            let outputs ← reqField fields "outputs" (decodeArray decodeOutput)
            pure (.code metadata execution_count source outputs)
          else if tag = "raw" then do
            let metadata ← reqField fields "metadata" decodeCellMetadata
            let source ← reqField fields "source" decodeString
            pure (.raw metadata source)
          else .error ("unknown variant " ++ tag)
      | some _ => .error "invalid type: tag cell_type must be a string"
      | none => .error "missing field cell_type"
  | _ => .error "invalid type: expected a cell object"

/-- `fn deserialize_notebook`: `serde_json::from_str::<DeserializedNotebook>`,
acting on the parsed JSON value.  All four fields are required (the struct
carries no `#[serde(default)]`). -/
def deserialize_notebook : Json → DecodeResult DeserializedNotebook
  | .obj fields => do
      let metadata ← reqField fields "metadata" decodeMetadata
      let nbformat ← reqField fields "nbformat" decodeI32
      let nbformat_minor ← reqField fields "nbformat_minor" decodeI32
      let cells ← reqField fields "cells" (decodeArray decodeCell)
      pure { metadata := metadata, nbformat := nbformat,
             nbformat_minor := nbformat_minor, cells := cells }
  | _ => .error "invalid type: expected struct DeserializedNotebook"

/-!
Serialization, mirroring the derived `Serialize` implementations: struct
fields are emitted in declaration order, `Option` fields emit `null` for
`None` (no `skip_serializing_if`), internally tagged enums emit the tag field
first and then the variant's fields in declaration order.
-/

/-- Serialization of an `Option<T>` field: `None` is emitted as `null`. -/
def encodeOpt {α : Type} (enc : α → Json) : Option α → Json
  | none => .null
  | some a => enc a

/-- Derived serialization of `DeserializedKernelSpec`. -/
def encodeKernelSpec (k : DeserializedKernelSpec) : Json :=
  .obj [("name", .str k.name)]

/-- Derived serialization of `DeserializedLanguageInfo`. -/
def encodeLanguageInfo (l : DeserializedLanguageInfo) : Json :=
  .obj [("name", .str l.name),
        ("version", encodeOpt Json.str l.version),
        ("codemirror_mode", encodeOpt Json.str l.codemirror_mode)]

/-- Derived serialization of `DeserializedMetadata`. -/
def encodeMetadata (m : DeserializedMetadata) : Json :=
  .obj [("kernelspec", encodeOpt encodeKernelSpec m.kernelspec),
        ("language_info", encodeOpt encodeLanguageInfo m.language_info)]

/-- Derived serialization of `DeserializedCellMetadata`. -/
def encodeCellMetadata (m : DeserializedCellMetadata) : Json :=
  .obj [("collapsed", encodeOpt Json.bool m.collapsed),
        ("scrolled", encodeOpt id m.scrolled),
        ("deletable", encodeOpt Json.bool m.deletable),
        ("editable", encodeOpt Json.bool m.editable),
        ("format", encodeOpt Json.str m.format),
        ("name", encodeOpt Json.str m.name),
        ("tags", encodeOpt (fun ts => Json.arr (ts.map Json.str)) m.tags)]

/-- Derived serialization of `DeserializedOutput` (tag field first). -/
def encodeOutput : DeserializedOutput → Json
  | .stream name text =>
      .obj [("output_type", .str "stream"), ("name", .str name), ("text", .str text)]
  | .displayData data metadata =>
      .obj [("output_type", .str "display_data"), ("data", data), ("metadata", metadata)]
  | .executeResult execution_count data metadata =>
      .obj [("output_type", .str "execute_result"),
            ("execution_count", .num execution_count),
            ("data", data), ("metadata", metadata)]
  | .error ename evalue traceback =>
      .obj [("output_type", .str "error"), ("ename", .str ename),
            ("evalue", .str evalue), ("traceback", .arr (traceback.map Json.str))]

/-- Derived serialization of `DeserializedCell` (tag field first). -/
def encodeCell : DeserializedCell → Json
  | .markdown metadata source attachments =>
      .obj [("cell_type", .str "markdown"),
            ("metadata", encodeCellMetadata metadata),
            ("source", .str source),
            ("attachments", encodeOpt id attachments)]
  | .code metadata execution_count source outputs =>
      .obj [("cell_type", .str "code"),
            ("metadata", encodeCellMetadata metadata),
            ("execution_count", encodeOpt Json.num execution_count),
            ("source", .str source),
            ("outputs", .arr (outputs.map encodeOutput))]
  | .raw metadata source =>
      .obj [("cell_type", .str "raw"),
            ("metadata", encodeCellMetadata metadata),
            ("source", .str source)]

/-- Derived serialization of `DeserializedNotebook` (fields in declaration
order). -/
def encode_notebook (d : DeserializedNotebook) : Json :=
  .obj [("metadata", encodeMetadata d.metadata),
        ("nbformat", .num d.nbformat),
        ("nbformat_minor", .num d.nbformat_minor),
        ("cells", .arr (d.cells.map encodeCell))]

/-!
Rendering a JSON value to its compact text, as `serde_json::to_string` does:
keys and elements in the order stored, no whitespace, strings escaped.
Rendering is a plain function of the JSON value, so the emitted bytes depend
on nothing but the encoded document.
-/

/-- Lowercase hexadecimal digit. -/
def hexDigit (n : Nat) : String :=
  String.singleton (if n < 10 then Char.ofNat (48 + n) else Char.ofNat (87 + n))

/-- String escaping for JSON text: quote, backslash, and control characters
get escape sequences, all other characters are emitted as themselves. -/
def escapeChar (c : Char) : String :=
  if c = '"' then "\\\""
  else if c = '\\' then "\\\\"
  else if c = '\n' then "\\n"
  else if c = '\t' then "\\t"
  else if c = '\r' then "\\r"
  else if c.toNat < 32 then
    "\\u00" ++ hexDigit (c.toNat / 16) ++ hexDigit (c.toNat % 16)
  else String.singleton c

/-- Escape a whole string. -/
def escapeString (s : String) : String :=
  String.join (s.toList.map escapeChar)

mutual

/-- Compact rendering of a JSON value. -/
def Json.render : Json → String
  | .null => "null"
  | .bool true => "true"
  | .bool false => "false"
  | .num n => toString n
  | .fnum m e => toString m ++ "e" ++ toString e
  | .str s => "\"" ++ escapeString s ++ "\""
  | .arr xs => "[" ++ Json.renderElems xs ++ "]"
  | .obj fs => "\x7b" ++ Json.renderFields fs ++ "\x7d"

/-- Render array elements, comma separated. -/
def Json.renderElems : List Json → String
  | [] => ""
  | [x] => Json.render x
  | x :: y :: rest => Json.render x ++ "," ++ Json.renderElems (y :: rest)

/-- Render object members, comma separated. -/
def Json.renderFields : List (String × Json) → String
  | [] => ""
  | [(k, v)] => "\"" ++ escapeString k ++ "\":" ++ Json.render v
  | (k, v) :: f :: rest =>
      "\"" ++ escapeString k ++ "\":" ++ Json.render v ++ "," ++
        Json.renderFields (f :: rest)

end

/-- The bytes `serde_json::to_string` produces for a document. -/
def encode_notebook_bytes (d : DeserializedNotebook) : String :=
  Json.render (encode_notebook d)

/-!
Well-formedness of in-memory documents.  The Rust types guarantee every
`i32` field lies in `i32` range; that guarantee is expressed here as an
explicit predicate.  The predicate additionally excludes the one untyped
corner the Rust types do allow: an `Option<serde_json::Value>` field
(`scrolled`, `attachments`) holding `Some(Value::Null)`, which serializes to
`null` and decodes back to `None`.
-/

/-- The value fits in an `i32`. -/
def Int32Wf (n : Int) : Prop := i32Min ≤ n ∧ n ≤ i32Max

/-- An optional JSON payload that is not an explicit `Some(Value::Null)`. -/
def OptValueWf (o : Option Json) : Prop := o ≠ some Json.null

/-- Well-formed cell metadata. -/
def CellMetadataWf (m : DeserializedCellMetadata) : Prop :=
  OptValueWf m.scrolled

/-- Well-formed output: `execution_count` fits in `i32`. -/
def OutputWf : DeserializedOutput → Prop
  | .executeResult n _ _ => Int32Wf n
  | _ => True

/-- Well-formed cell. -/
def CellWf : DeserializedCell → Prop
  | .markdown m _ a => CellMetadataWf m ∧ OptValueWf a
  | .code m ec _ outs =>
      CellMetadataWf m ∧ (∀ n ∈ ec, Int32Wf n) ∧ ∀ o ∈ outs, OutputWf o
  | .raw m _ => CellMetadataWf m

/-- Well-formed document: every `i32` field in range, no optional JSON
payload holding an explicit null. -/
def NotebookWf (d : DeserializedNotebook) : Prop :=
  Int32Wf d.nbformat ∧ Int32Wf d.nbformat_minor ∧ ∀ c ∈ d.cells, CellWf c

/-!
Concrete inputs and documents used to settle the individual claims.
-/

/-- Cell metadata with every optional field absent. -/
def emptyCellMeta : DeserializedCellMetadata :=
  { collapsed := none, scrolled := none, deletable := none, editable := none,
    format := none, name := none, tags := none }

/-- A markdown cell whose `source` is a single JSON string. -/
def mdStringCell (s : String) : Json :=
  .obj [("cell_type", .str "markdown"), ("metadata", .obj []), ("source", .str s)]

/-- A markdown cell whose `source` is an array of string fragments. -/
def mdArrayCell (ss : List String) : Json :=
  .obj [("cell_type", .str "markdown"), ("metadata", .obj []),
        ("source", .arr (ss.map Json.str))]

/-- A top-level notebook object around the given cells. -/
def nbInput (cells : List Json) : Json :=
  .obj [("nbformat", .num 4), ("nbformat_minor", .num 0), ("metadata", .obj []),
        ("cells", .arr cells)]

/-- Notebook whose one cell carries its source as two line fragments (the
array form used throughout the repository's own
`deserializable_sample_notebook`). -/
def sourceArrayInput : Json := nbInput [mdArrayCell ["line one\n", "line two"]]

/-- The same notebook with the fragments already concatenated into one
string. -/
def sourceStringInput : Json := nbInput [mdStringCell "line one\nline two"]

/-- The spec's example input, verbatim: `source` is the array `["# Title"]`. -/
def c4Input : Json := nbInput [mdArrayCell ["# Title"]]

/-- The spec's example with `source` as the single string `"# Title"`. -/
def c4StringInput : Json := nbInput [mdStringCell "# Title"]

/-- Top-level object omitting `metadata` (and everything but version and
cells). -/
def noMetadataInput : Json :=
  .obj [("nbformat", .num 4), ("nbformat_minor", .num 0), ("cells", .arr [])]

/-- Top-level object omitting the major version field `nbformat`. -/
def noVersionInput : Json :=
  .obj [("metadata", .obj []), ("nbformat_minor", .num 0), ("cells", .arr [])]

/-- Top-level object with all four required fields present and nothing else. -/
def minimalInput : Json :=
  .obj [("metadata", .obj []), ("nbformat", .num 4), ("nbformat_minor", .num 0),
        ("cells", .arr [])]

/-- Notebook containing a healthy markdown cell and a code cell whose second
output carries the unrecognized tag `"bogus"`; everything else is valid. -/
def unknownOutputInput : Json :=
  nbInput
    [mdStringCell "fine",
     .obj [("cell_type", .str "code"), ("metadata", .obj []),
           ("execution_count", .num 1), ("source", .str "print(1)"),
           ("outputs", .arr
             [.obj [("output_type", .str "stream"), ("name", .str "stdout"),
                    ("text", .str "1\n")],
              .obj [("output_type", .str "bogus")]])]]

/-- A structurally valid notebook claiming major format version 99 — a
version no notebook schema defines. -/
def version99Input : Json :=
  .obj [("metadata", .obj []), ("nbformat", .num 99), ("nbformat_minor", .num 0),
        ("cells", .arr [mdStringCell "x"])]

/-- Valid notebook carrying the given version numbers plus an unknown
top-level field. -/
def versionProbe (major minor : Int) : Json :=
  .obj [("metadata", .obj []), ("nbformat", .num major),
        ("nbformat_minor", .num minor), ("cells", .arr []),
        ("unknown_extra_field", .str "ignored")]

/-- Valid notebook except that a code cell's `execution_count` is the
fractional literal `2.5`. -/
def fracCountInput : Json :=
  nbInput
    [.obj [("cell_type", .str "code"), ("metadata", .obj []),
           ("execution_count", .fnum 25 (-1)), ("source", .str "x"),
           ("outputs", .arr [])]]

/-- Valid notebook except that `nbformat` is `2^31`, one past the `i32`
range. -/
def hugeVersionInput : Json :=
  .obj [("metadata", .obj []), ("nbformat", .num (2 ^ 31)),
        ("nbformat_minor", .num 0), ("cells", .arr [])]

/-- The same code-cell notebook with the whole in-range `execution_count`
`3`. -/
def wholeCountInput : Json :=
  nbInput
    [.obj [("cell_type", .str "code"), ("metadata", .obj []),
           ("execution_count", .num 3), ("source", .str "x"),
           ("outputs", .arr [])]]

/-- An in-memory document exercising every cell and output variant, used as
the concrete witness document. -/
def sampleNotebookDoc : DeserializedNotebook :=
  { metadata := { kernelspec := some { name := "python3" }
                  language_info := some { name := "python", version := some "3.8",
                                          codemirror_mode := none } }
    nbformat := 4
    nbformat_minor := 0
    cells :=
      [.markdown emptyCellMeta "# Hi" none,
       .code emptyCellMeta (some 2) "print(1)"
         [.stream "stdout" "1\n",
          .displayData (.obj [("text/plain", .str "x")]) (.obj []),
          .executeResult 2 (.obj [("text/plain", .str "1")]) (.obj []),
          .error "E" "boom" ["t1", "t2"]],
       .raw emptyCellMeta "raw"] }

/-- A document whose markdown cell stores `scrolled = Some(Value::Null)` —
representable in the Rust types, but its serialization is the same `null`
that `None` produces. -/
def scrolledNullDoc : DeserializedNotebook :=
  { metadata := { kernelspec := none, language_info := none }
    nbformat := 4
    nbformat_minor := 0
    cells := [.markdown { emptyCellMeta with scrolled := some Json.null } "x" none] }

/-- What `scrolledNullDoc` decodes back to: the explicit null has collapsed
to `None`. -/
def scrolledNoneDoc : DeserializedNotebook :=
  { metadata := { kernelspec := none, language_info := none }
    nbformat := 4
    nbformat_minor := 0
    cells := [.markdown emptyCellMeta "x" none] }

/-- The `scrolled` field of a document's first cell, when that cell is a
markdown cell. -/
def firstCellScrolled (d : DeserializedNotebook) : Option Json :=
  match d.cells with
  | .markdown m _ _ :: _ => m.scrolled
  | _ => none

/-!
Round-trip lemmas: decoding an encoded field recovers the field.
-/

theorem ok_bind {α β : Type} (a : α) (f : α → DecodeResult β) :
    (Except.ok a : DecodeResult α) >>= f = f a := rfl

theorem isOk_ok {α : Type} (a : α) : (Except.ok a : DecodeResult α).isOk = true := rfl

theorem isOk_error {α : Type} (e : String) :
    (Except.error e : DecodeResult α).isOk = false := rfl

theorem decodeI32_num {n : Int} (h : Int32Wf n) : decodeI32 (.num n) = .ok n := by
  obtain ⟨h1, h2⟩ := h
  simp [decodeI32, h1, h2]

theorem decodeOptField_bool (o : Option Bool) :
    decodeOptField decodeBool (some (encodeOpt Json.bool o)) = .ok o := by
  cases o <;> rfl

theorem decodeOptField_str (o : Option String) :
    decodeOptField decodeString (some (encodeOpt Json.str o)) = .ok o := by
  cases o <;> rfl

theorem decodeOptField_i32 (o : Option Int) (h : ∀ n ∈ o, Int32Wf n) :
    decodeOptField decodeI32 (some (encodeOpt Json.num o)) = .ok o := by
  cases o with
  | none => rfl
  | some n =>
      have hn := decodeI32_num (h n rfl)
      simp [decodeOptField, encodeOpt, hn, Except.map]

theorem decodeOptField_value (o : Option Json) (h : OptValueWf o) :
    decodeOptField decodeValue (some (encodeOpt id o)) = .ok o := by
  cases o with
  | none => rfl
  | some j =>
      cases j with
      | null => exact absurd rfl h
      | _ => rfl

theorem decodeList_strings (l : List String) :
    decodeList decodeString (l.map Json.str) = .ok l := by
  induction l with
  | nil => rfl
  | cons x xs ih =>
      simp [decodeList, decodeString, ih, bind, Except.bind, pure, Except.pure]

theorem decodeOptField_strList (o : Option (List String)) :
    decodeOptField (decodeArray decodeString)
      (some (encodeOpt (fun ts => Json.arr (ts.map Json.str)) o)) = .ok o := by
  cases o with
  | none => rfl
  | some ts =>
      simp [decodeOptField, encodeOpt, decodeArray, decodeList_strings, Except.map]

theorem decodeKernelSpec_roundtrip (k : DeserializedKernelSpec) :
    decodeKernelSpec (encodeKernelSpec k) = .ok k := by
  obtain ⟨n⟩ := k
  rfl

theorem decodeLanguageInfo_roundtrip (l : DeserializedLanguageInfo) :
    decodeLanguageInfo (encodeLanguageInfo l) = .ok l := by
  obtain ⟨n, v, c⟩ := l
  cases v <;> cases c <;> rfl

theorem decodeMetadata_roundtrip (m : DeserializedMetadata) :
    decodeMetadata (encodeMetadata m) = .ok m := by
  obtain ⟨k, l⟩ := m
  rcases k with _ | ⟨kn⟩ <;> rcases l with _ | ⟨ln, lv, lc⟩ <;>
    first
      | rfl
      | (rcases lv with _ | v <;> rcases lc with _ | c <;> rfl)

theorem decodeCellMetadata_roundtrip (m : DeserializedCellMetadata)
    (h : CellMetadataWf m) :
    decodeCellMetadata (encodeCellMetadata m) = .ok m := by
  obtain ⟨c, s, d, e, f, n, t⟩ := m
  have hs : OptValueWf s := h
  simp [decodeCellMetadata, encodeCellMetadata, Json.lookup,
    decodeOptField_bool, decodeOptField_str, decodeOptField_strList,
    decodeOptField_value s hs, ok_bind]

theorem decodeOutput_roundtrip (o : DeserializedOutput) (h : OutputWf o) :
    decodeOutput (encodeOutput o) = .ok o := by
  cases o with
  | stream name text => rfl
  | displayData data metadata => rfl
  | executeResult n data metadata =>
      have hn := decodeI32_num (n := n) h
      simp [decodeOutput, encodeOutput, Json.lookup, reqField, decodeValue, hn, ok_bind]
  | error ename evalue traceback =>
      simp [decodeOutput, encodeOutput, Json.lookup, reqField, decodeString,
        decodeArray, decodeList_strings, ok_bind]

theorem decodeList_map {α : Type} (dec : Json → DecodeResult α) (enc : α → Json)
    (xs : List α) (h : ∀ x ∈ xs, dec (enc x) = .ok x) :
    decodeList dec (xs.map enc) = .ok xs := by
  induction xs with
  | nil => rfl
  | cons x rest ih =>
      have hx := h x (by simp)
      have hrest := ih (fun y hy => h y (by simp [hy]))
      simp [decodeList, hx, hrest, ok_bind]

theorem decodeCell_roundtrip (c : DeserializedCell) (h : CellWf c) :
    decodeCell (encodeCell c) = .ok c := by
  cases c with
  | markdown m source attachments =>
      obtain ⟨hm, ha⟩ := h
      simp [decodeCell, encodeCell, Json.lookup, reqField, decodeString,
        decodeCellMetadata_roundtrip m hm, decodeOptField_value attachments ha, ok_bind]
  | code m execution_count source outputs =>
      obtain ⟨hm, hec, houts⟩ := h
      have hlist := decodeList_map decodeOutput encodeOutput outputs
        (fun o ho => decodeOutput_roundtrip o (houts o ho))
      simp [decodeCell, encodeCell, Json.lookup, reqField, decodeString,
        decodeCellMetadata_roundtrip m hm, decodeOptField_i32 execution_count hec,
        decodeArray, hlist, ok_bind]
  | raw m source =>
      simp [decodeCell, encodeCell, Json.lookup, reqField, decodeString,
        decodeCellMetadata_roundtrip m h, ok_bind]

/-!
The claims.
-/

/-- Claim C1.  The spec says decode accepts a cell's `source` given either as
a single JSON string or as an array of string fragments (concatenated).  The
code declares `source: String` with no tolerance for the array form, yet the
repository's own `deserializable_sample_notebook` carries every `source` as
an array of fragments — so the code rejects its own sample data: a notebook
whose cell `source` is a single string decodes, while the identical notebook
with the source split into fragments fails decode with a type error. -/
theorem claim_C1_source_array_rejected :
    (deserialize_notebook sourceStringInput).isOk = true ∧
      (deserialize_notebook sourceArrayInput).isOk = false :=
  ⟨rfl, rfl⟩

/-- Claim C2, counterexample.  Round-trip equality fails on the Rust-typed
document that stores `scrolled = Some(Value::Null)`: it serializes to the
same `null` that `None` produces, so decoding the encoding yields the
document with `scrolled = None`, which differs field-by-field from the
original. -/
theorem claim_C2_counterexample :
    deserialize_notebook (encode_notebook scrolledNullDoc) = Except.ok scrolledNoneDoc ∧
      scrolledNoneDoc ≠ scrolledNullDoc := by
  refine ⟨rfl, ?_⟩
  intro h
  have h2 := congrArg firstCellScrolled h
  exact Option.noConfusion h2

/-- Claim C2, amended.  For every document whose `i32` fields are in range
(guaranteed by the Rust types) and whose optional untyped payloads
(`scrolled`, `attachments`) do not hold an explicit JSON `null`, decoding
the encoded document yields the document back, field by field. -/
theorem claim_C2_roundtrip (d : DeserializedNotebook) (h : NotebookWf d) :
    deserialize_notebook (encode_notebook d) = .ok d := by
  obtain ⟨h1, h2, hcells⟩ := h
  have hlist := decodeList_map decodeCell encodeCell d.cells
    (fun c hc => decodeCell_roundtrip c (hcells c hc))
  obtain ⟨m, nb, nbm, cells⟩ := d
  simp only [NotebookUi.DeserializedNotebook.cells] at hlist
  simp [deserialize_notebook, encode_notebook, Json.lookup, reqField,
    decodeMetadata_roundtrip, decodeI32_num h1, decodeI32_num h2,
    decodeArray, hlist, ok_bind]

/-- Claim C2, witness: the round trip at a concrete document exercising all
three cell variants and all four output variants. -/
theorem claim_C2_roundtrip_witness :
    NotebookWf sampleNotebookDoc ∧
      deserialize_notebook (encode_notebook sampleNotebookDoc) =
        Except.ok sampleNotebookDoc := by
  have hwf : NotebookWf sampleNotebookDoc := by
    refine ⟨by norm_num [Int32Wf, i32Min, i32Max, sampleNotebookDoc],
            by norm_num [Int32Wf, i32Min, i32Max, sampleNotebookDoc], ?_⟩
    intro c hc
    simp only [sampleNotebookDoc, List.mem_cons, List.not_mem_nil, or_false] at hc
    rcases hc with rfl | rfl | rfl
    · exact ⟨by simp [CellMetadataWf, OptValueWf, emptyCellMeta], by simp [OptValueWf]⟩
    · refine ⟨by simp [CellMetadataWf, OptValueWf, emptyCellMeta], ?_, ?_⟩
      · intro n hn
        simp only [Option.mem_def, Option.some.injEq] at hn
        subst hn
        norm_num [Int32Wf, i32Min, i32Max]
      · intro o ho
        simp only [List.mem_cons, List.not_mem_nil, or_false] at ho
        rcases ho with rfl | rfl | rfl | rfl <;>
          norm_num [OutputWf, Int32Wf, i32Min, i32Max]
    · simp [CellWf, CellMetadataWf, OptValueWf, emptyCellMeta]
  exact ⟨hwf, claim_C2_roundtrip sampleNotebookDoc hwf⟩

/-- Claim C3.  The decoded struct indeed always carries `metadata`,
`nbformat`, `nbformat_minor` and `cells` (they are fields of
`DeserializedNotebook`), but the spec's defaulting behaviour is absent from
the code: `DeserializedNotebook` has no `#[serde(default)]`, so an input
omitting `metadata` — or the version field — fails decode with a
missing-field error instead of defaulting, even though the repository
defines `DEFAULT_NOTEBOOK_FORMAT` and a `Default` impl for exactly these
defaults and its own `deserializable_sample_notebook` omits all three
fields.  With all four fields present, decode succeeds. -/
theorem claim_C3_missing_fields_fail :
    (deserialize_notebook noMetadataInput).isOk = false ∧
      (deserialize_notebook noVersionInput).isOk = false ∧
      deserialize_notebook minimalInput =
        Except.ok { metadata := DeserializedMetadata.default, nbformat := 4,
                    nbformat_minor := 0, cells := [] } :=
  ⟨rfl, rfl, rfl⟩

/-- Claim C4.  The spec's example input carries `"source": ["# Title"]` — the
array form — and therefore fails to decode (the code requires a single JSON
string).  The same input with `"source": "# Title"` decodes to exactly the
document the claim describes: one markdown cell with source `"# Title"` and
format version `(4, 0)`. -/
theorem claim_C4_example :
    (deserialize_notebook c4Input).isOk = false ∧
      deserialize_notebook c4StringInput =
        Except.ok { metadata := DeserializedMetadata.default, nbformat := 4,
                    nbformat_minor := 0,
                    cells := [.markdown emptyCellMeta "# Title" none] } :=
  ⟨rfl, rfl⟩

/-- Claim C5, counterexample.  In a notebook whose only flaw is one output
with the unrecognized tag `"bogus"` (sitting beside a healthy output in a
healthy cell, next to another healthy cell), decode does not return any
document: `serde_json::from_str` propagates the error and the whole decode
fails, contradicting the claim that only the single output fails. -/
theorem claim_C5_counterexample :
    (deserialize_notebook unknownOutputInput).isOk = false := rfl

/-- Claim C5, amended.  An output object whose `output_type` tag is a string
other than `stream`, `display_data`, `execute_result` or `error` always
fails to decode, and that failure aborts the decode of the whole document
(shown on the concrete notebook above). -/
theorem claim_C5_unknown_output_fails_document :
    (∀ (fields : List (String × Json)) (tag : String),
        Json.lookup fields "output_type" = some (.str tag) →
        tag ∉ (["stream", "display_data", "execute_result", "error"] : List String) →
        (decodeOutput (.obj fields)).isOk = false) ∧
      (deserialize_notebook unknownOutputInput).isOk = false := by
  refine ⟨?_, rfl⟩
  intro fields tag htag hne
  simp only [List.mem_cons, List.not_mem_nil, or_false, not_or] at hne
  obtain ⟨h1, h2, h3, h4⟩ := hne
  simp [decodeOutput, htag, h1, h2, h3, h4, isOk_error]

/-- Claim C5, witness: the amended theorem applied to a concrete output
object tagged `"foo"`. -/
theorem claim_C5_witness :
    (decodeOutput (.obj [("output_type", Json.str "foo")])).isOk = false :=
  claim_C5_unknown_output_fails_document.1 [("output_type", Json.str "foo")] "foo"
    rfl (by decide)

/-- Claim C6, counterexample.  A notebook declaring major format version 99 —
a version no notebook schema defines, so certainly not one this codec
implements — decodes successfully: the code performs no version check at
all, and no `UnsupportedVersion`-style error exists in it. -/
theorem claim_C6_counterexample :
    deserialize_notebook version99Input =
      Except.ok { metadata := DeserializedMetadata.default, nbformat := 99,
                  nbformat_minor := 0,
                  cells := [.markdown emptyCellMeta "x" none] } := rfl

/-- Claim C6, amended.  Decode applies no major-version check: any `nbformat`
and `nbformat_minor` that are whole numbers in `i32` range are accepted
as-is, and unknown fields (here an extra top-level field, as an unknown
minor revision would add) are ignored. -/
theorem claim_C6_no_version_check :
    ∀ major minor : Int, Int32Wf major → Int32Wf minor →
      deserialize_notebook (versionProbe major minor) =
        Except.ok { metadata := DeserializedMetadata.default,
                    nbformat := major, nbformat_minor := minor, cells := [] } := by
  intro major minor h1 h2
  simp [deserialize_notebook, versionProbe, Json.lookup, reqField,
    decodeMetadata, decodeOptField, decodeI32_num h1, decodeI32_num h2,
    decodeArray, decodeList, ok_bind, DeserializedMetadata.default]

/-- Claim C6, witness: the amended theorem at the concrete versions 99 and
7. -/
theorem claim_C6_witness :
    Int32Wf 99 ∧ Int32Wf 7 ∧
      deserialize_notebook (versionProbe 99 7) =
        Except.ok { metadata := DeserializedMetadata.default, nbformat := 99,
                    nbformat_minor := 7, cells := [] } := by
  have h1 : Int32Wf 99 := by norm_num [Int32Wf, i32Min, i32Max]
  have h2 : Int32Wf 7 := by norm_num [Int32Wf, i32Min, i32Max]
  exact ⟨h1, h2, claim_C6_no_version_check 99 7 h1 h2⟩

/-- Claim C7.  Encoding is deterministic: the emitted bytes are a pure
function of the document — serialization fixes the key order (struct
declaration order, tag first) and the number formatting, so equal documents
yield byte-identical output. -/
theorem claim_C7_encode_deterministic :
    ∀ d1 d2 : DeserializedNotebook, d1 = d2 →
      encode_notebook_bytes d1 = encode_notebook_bytes d2 := by
  intro d1 d2 h
  exact congrArg encode_notebook_bytes h

/-- Claim C7, witness: determinism at the concrete sample document. -/
theorem claim_C7_witness :
    sampleNotebookDoc = sampleNotebookDoc ∧
      encode_notebook_bytes sampleNotebookDoc = encode_notebook_bytes sampleNotebookDoc :=
  ⟨rfl, claim_C7_encode_deterministic sampleNotebookDoc sampleNotebookDoc rfl⟩

/-- Claim C8.  `i32` deserialization — through which `execution_count`, the
`execute_result` count, `nbformat` and `nbformat_minor` all pass — succeeds
exactly on integer literals within `i32` range; fractional literals and
out-of-range integers fail.  Concretely: a notebook whose code cell has
`execution_count` 2.5 fails decode, one whose `nbformat` is `2^31` fails
decode, and the same notebook with the whole in-range count 3 decodes. -/
theorem claim_C8_numeric_fields :
    (∀ j : Json, (decodeI32 j).isOk = true ↔
        ∃ n : Int, j = Json.num n ∧ i32Min ≤ n ∧ n ≤ i32Max) ∧
      (deserialize_notebook fracCountInput).isOk = false ∧
      (deserialize_notebook hugeVersionInput).isOk = false ∧
      (deserialize_notebook wholeCountInput).isOk = true := by
  refine ⟨?_, rfl, rfl, rfl⟩
  intro j
  cases j with
  | num n =>
      by_cases h : i32Min ≤ n ∧ n ≤ i32Max
      · simp only [decodeI32, if_pos h, isOk_ok, true_iff]
        exact ⟨n, rfl, h.1, h.2⟩
      · simp only [decodeI32, if_neg h, isOk_error, Bool.false_eq_true, false_iff]
        rintro ⟨m, hm, hm1, hm2⟩
        cases hm
        exact absurd ⟨hm1, hm2⟩ h
  | null => simp [decodeI32, isOk_error]
  | bool b => simp [decodeI32, isOk_error]
  | fnum m e => simp [decodeI32, isOk_error]
  | str s => simp [decodeI32, isOk_error]
  | arr xs => simp [decodeI32, isOk_error]
  | obj fs => simp [decodeI32, isOk_error]

/-- Claim C8, witness: the characterization applied at the concrete integer
literal 3, which is accepted. -/
theorem claim_C8_witness : (decodeI32 (Json.num 3)).isOk = true :=
  (claim_C8_numeric_fields.1 (Json.num 3)).mpr
    ⟨3, rfl, by norm_num [i32Min], by norm_num [i32Max]⟩

/-- Claim C9.  `Notebook::new` installs `NotebookData::default()`: an empty
cell sequence, default metadata (no kernelspec, no language info) and the
current format version, major `DEFAULT_NOTEBOOK_FORMAT = 4`, minor
`DEFAULT_NOTEBOOK_FORMAT_MINOR = 0`. -/
theorem claim_C9_new_document :
    Notebook.new_data.cells = [] ∧
      Notebook.new_data.metadata.kernelspec = none ∧
      Notebook.new_data.metadata.language_info = none ∧
      Notebook.new_data.nbformat = 4 ∧
      Notebook.new_data.nbformat_minor = 0 :=
  ⟨rfl, rfl, rfl, rfl, rfl⟩

/-- Claim C10.  For each optional field — the seven cell-metadata fields and
a cell's `execution_count` and `attachments` — an object in which the field
is absent decodes to the same value as the object extended with that field
set to explicit JSON `null`: absence and explicit null are
indistinguishable after decode (both become `None`). -/
theorem claim_C10_null_vs_absent :
    (∀ fs : List (String × Json), Json.lookup fs "collapsed" = none →
        decodeCellMetadata (.obj fs) =
          decodeCellMetadata (.obj (("collapsed", Json.null) :: fs))) ∧
      (∀ fs : List (String × Json), Json.lookup fs "scrolled" = none →
        decodeCellMetadata (.obj fs) =
          decodeCellMetadata (.obj (("scrolled", Json.null) :: fs))) ∧
      (∀ fs : List (String × Json), Json.lookup fs "deletable" = none →
        decodeCellMetadata (.obj fs) =
          decodeCellMetadata (.obj (("deletable", Json.null) :: fs))) ∧
      (∀ fs : List (String × Json), Json.lookup fs "editable" = none →
        decodeCellMetadata (.obj fs) =
          decodeCellMetadata (.obj (("editable", Json.null) :: fs))) ∧
      (∀ fs : List (String × Json), Json.lookup fs "format" = none →
        decodeCellMetadata (.obj fs) =
          decodeCellMetadata (.obj (("format", Json.null) :: fs))) ∧
      (∀ fs : List (String × Json), Json.lookup fs "name" = none →
        decodeCellMetadata (.obj fs) =
          decodeCellMetadata (.obj (("name", Json.null) :: fs))) ∧
      (∀ fs : List (String × Json), Json.lookup fs "tags" = none →
        decodeCellMetadata (.obj fs) =
          decodeCellMetadata (.obj (("tags", Json.null) :: fs))) ∧
      (∀ fs : List (String × Json), Json.lookup fs "execution_count" = none →
        decodeCell (.obj fs) =
          decodeCell (.obj (("execution_count", Json.null) :: fs))) ∧
      (∀ fs : List (String × Json), Json.lookup fs "attachments" = none →
        decodeCell (.obj fs) =
          decodeCell (.obj (("attachments", Json.null) :: fs))) := by
  refine ⟨?_, ?_, ?_, ?_, ?_, ?_, ?_, ?_, ?_⟩
  · intro fs h
    simp [decodeCellMetadata, Json.lookup, h, decodeOptField]
  · intro fs h
    simp [decodeCellMetadata, Json.lookup, h, decodeOptField]
  · intro fs h
    simp [decodeCellMetadata, Json.lookup, h, decodeOptField]
  · intro fs h
    simp [decodeCellMetadata, Json.lookup, h, decodeOptField]
  · intro fs h
    simp [decodeCellMetadata, Json.lookup, h, decodeOptField]
  · intro fs h
    simp [decodeCellMetadata, Json.lookup, h, decodeOptField]
  · intro fs h
    simp [decodeCellMetadata, Json.lookup, h, decodeOptField]
  · intro fs h
    have hct : Json.lookup (("execution_count", Json.null) :: fs) "cell_type" =
        Json.lookup fs "cell_type" := by simp [Json.lookup]
    simp only [decodeCell, hct]
    cases hres : Json.lookup fs "cell_type" with
    | none => rfl
    | some j =>
        cases j with
        | str tag =>
            by_cases h1 : tag = "markdown"
            · simp [h1, reqField, Json.lookup, decodeOptField]
            · by_cases h2 : tag = "code"
              · simp [h1, h2, reqField, Json.lookup, h, decodeOptField]
              · by_cases h3 : tag = "raw"
                · simp [h1, h2, h3, reqField, Json.lookup]
                · simp [h1, h2, h3]
        | null => rfl
        | bool b => rfl
        | num n => rfl
        | fnum m e => rfl
        | arr xs => rfl
        | obj o => rfl
  · intro fs h
    have hct : Json.lookup (("attachments", Json.null) :: fs) "cell_type" =
        Json.lookup fs "cell_type" := by simp [Json.lookup]
    simp only [decodeCell, hct]
    cases hres : Json.lookup fs "cell_type" with
    | none => rfl
    | some j =>
        cases j with
        | str tag =>
            by_cases h1 : tag = "markdown"
            · simp [h1, reqField, Json.lookup, h, decodeOptField]
            · by_cases h2 : tag = "code"
              · simp [h1, h2, reqField, Json.lookup, decodeOptField]
              · by_cases h3 : tag = "raw"
                · simp [h1, h2, h3, reqField, Json.lookup]
                · simp [h1, h2, h3]
        | null => rfl
        | bool b => rfl
        | num n => rfl
        | fnum m e => rfl
        | arr xs => rfl
        | obj o => rfl

/-- Claim C10, witness: each conjunct applied to the empty field list. -/
theorem claim_C10_witness :
    decodeCellMetadata (.obj []) = decodeCellMetadata (.obj [("collapsed", Json.null)]) ∧
      decodeCellMetadata (.obj []) = decodeCellMetadata (.obj [("scrolled", Json.null)]) ∧
      decodeCellMetadata (.obj []) = decodeCellMetadata (.obj [("deletable", Json.null)]) ∧
      decodeCellMetadata (.obj []) = decodeCellMetadata (.obj [("editable", Json.null)]) ∧
      decodeCellMetadata (.obj []) = decodeCellMetadata (.obj [("format", Json.null)]) ∧
      decodeCellMetadata (.obj []) = decodeCellMetadata (.obj [("name", Json.null)]) ∧
      decodeCellMetadata (.obj []) = decodeCellMetadata (.obj [("tags", Json.null)]) ∧
      decodeCell (.obj []) = decodeCell (.obj [("execution_count", Json.null)]) ∧
      decodeCell (.obj []) = decodeCell (.obj [("attachments", Json.null)]) :=
  ⟨claim_C10_null_vs_absent.1 [] rfl,
   claim_C10_null_vs_absent.2.1 [] rfl,
   claim_C10_null_vs_absent.2.2.1 [] rfl,
   claim_C10_null_vs_absent.2.2.2.1 [] rfl,
   claim_C10_null_vs_absent.2.2.2.2.1 [] rfl,
   claim_C10_null_vs_absent.2.2.2.2.2.1 [] rfl,
   claim_C10_null_vs_absent.2.2.2.2.2.2.1 [] rfl,
   claim_C10_null_vs_absent.2.2.2.2.2.2.2.1 [] rfl,
   claim_C10_null_vs_absent.2.2.2.2.2.2.2.2 [] rfl⟩

end NotebookUi
